import Mathlib

/-!
Verification development for the susbound repository: a three-step email
workflow (spam classification, reply composition, reply delivery) behind an
HTTP webhook ingress. Strings are embedded as lists of characters; the
JavaScript string operations used by the source (`includes`, `replace` with a
string pattern, global regex replacement, `trim`) are given explicit
executable definitions, and the three workflow steps plus the orchestrator are
embedded as pure functions, with the external language-model and email-provider
calls supplied as oracle parameters.
-/

set_option autoImplicit false

/-- Strings are modelled as lists of characters. -/
abbrev Str := List Char

/-- Test whether the first list is a leading segment of the second
(the prefix test underlying JS `String.prototype.includes` and `replace`). -/
def startsList : Str → Str → Bool
  | [], _ => true
  | _ :: _, [] => false
  | a :: ps, c :: t => a == c && startsList ps t

/-- JS `String.prototype.includes` with a string pattern: the pattern occurs
as a contiguous substring. -/
def includes (pat : Str) : Str → Bool
  | [] => startsList pat []
  | c :: t => startsList pat (c :: t) || includes pat t

/-- JS `String.prototype.replace` with a string pattern (no dollar escapes in
the replacement): replaces only the first occurrence, leftmost match. -/
def replaceFirst (pat repl : Str) : Str → Str
  | [] => if startsList pat [] then repl else []
  | c :: t =>
    if startsList pat (c :: t) then repl ++ (c :: t).drop pat.length
    else c :: replaceFirst pat repl t

/-- Drop characters through the first closing angle bracket, returning the
remainder; `none` when no closing bracket exists (the regex match fails). -/
def afterGt : Str → Option Str
  | [] => none
  | c :: t => if c = '>' then some t else afterGt t

/-- Fuel-indexed worker for the global tag-stripping regex replacement.
The fuel only bounds recursion depth; `stripTags` supplies enough fuel that
the bound is never hit. -/
def stripTagsGo : Nat → Str → Str
  | _, [] => []
  | 0, s => s
  | fuel + 1, c :: t =>
    if c = '<' then
      match afterGt t with
      | some t2 => stripTagsGo fuel t2
      | none => c :: stripTagsGo fuel t
    else c :: stripTagsGo fuel t

/-- JS `replace(tagRegex, empty)` with the global regex matching a literal
opening angle bracket, any run of characters other than a closing angle
bracket, then a closing angle bracket: every such leftmost match is deleted. -/
def stripTags (s : Str) : Str := stripTagsGo s.length s

/-- Fuel-indexed worker for global replacement of a fixed nonempty pattern.
The fuel only bounds recursion depth; `replaceAllG` supplies enough fuel that
the bound is never hit. -/
def replaceAllGo (pat repl : Str) : Nat → Str → Str
  | _, [] => []
  | 0, s => s
  | fuel + 1, c :: t =>
    if startsList pat (c :: t) then
      repl ++ replaceAllGo pat repl fuel ((c :: t).drop pat.length)
    else c :: replaceAllGo pat repl fuel t

/-- JS global regex replacement of a fixed literal (nonempty) pattern:
left-to-right, non-overlapping. -/
def replaceAllG (pat repl s : Str) : Str := replaceAllGo pat repl s.length s

/-- The whitespace class trimmed by JS `String.prototype.trim` (restricted to
the characters that can arise here). -/
def isJsWhite (c : Char) : Bool :=
  c = ' ' || c = '\t' || c = '\n' || c = '\r' || c = '\x0b' || c = '\x0c' ||
  c = '\u00a0' || c = '\ufeff'

/-- JS `String.prototype.trim`: remove leading and trailing whitespace. -/
def trimJs (s : Str) : Str :=
  ((s.dropWhile isJsWhite).reverse.dropWhile isJsWhite).reverse

/-- JS `a || b` on an optional string expression: the fallback is used when
the field is absent or holds the empty string (the only falsy string). -/
def jsOrStr (v : Option Str) (dflt : Str) : Str :=
  match v with
  | none => dflt
  | some s => if s = [] then dflt else s

/-- JS `Array.prototype.join` with a separator. -/
def joinSep (sep : Str) : List Str → Str
  | [] => []
  | [x] => x
  | x :: xs => x ++ sep ++ joinSep sep xs

/-- The fixed attribution footer appended by `generateReply`. -/
def footer : Str :=
  ("<br><br>powered by<br><a href=\"https://inbound.new/?utm_source=inbound-security&utm_campaign=susbound\"><img src=\"https://inbound.new/images/inbound-wordmark.png\" alt=\"Inbound\"></a>").toList

/-- The closing body tag searched for by `generateReply`. -/
def bodyClose : Str := ("</body>").toList

/-- The closing html tag searched for by `generateReply`. -/
def htmlClose : Str := ("</html>").toList

/-- Footer post-processing from `generateReply`: insert the footer before the
first closing body tag when present, else before the first closing html tag
when present, else append it at the end. -/
def appendFooter (text : Str) : Str :=
  if includes bodyClose text then
    replaceFirst bodyClose (footer ++ bodyClose) text
  else if includes htmlClose text then
    replaceFirst htmlClose (footer ++ htmlClose) text
  else text ++ footer

/-- The tag-stripping and entity-unescaping pipeline from `sendReply`, in
source order: delete tag matches, then globally rewrite the nbsp, amp, lt, gt
and quot entities, in that order. -/
def stripAndUnescape (replyHtml : Str) : Str :=
  replaceAllG ("&quot;").toList ("\"").toList
    (replaceAllG ("&gt;").toList (">").toList
      (replaceAllG ("&lt;").toList ("<").toList
        (replaceAllG ("&amp;").toList ("&").toList
          (replaceAllG ("&nbsp;").toList (" ").toList
            (stripTags replyHtml)))))

/-- The plain-text projection `replyText` computed by `sendReply`: strip tags,
unescape the five entities, then trim. -/
def replyTextOf (replyHtml : Str) : Str := trimJs (stripAndUnescape replyHtml)

/-- An address object of the inbound payload; `text` is its display string.
-/
structure EmailAddress where
  text : Option Str
deriving DecidableEq

/-- The parsed representation of the received email inside the payload. -/
structure ParsedData where
  raw : Option Str
  headers : Option (List (Str × Str))
  htmlBody : Option Str
  textBody : Option Str
deriving DecidableEq

/-- The cleaned-content representation used as a fallback by `generateReply`.
-/
structure CleanedContent where
  html : Option Str
  text : Option Str
deriving DecidableEq

/-- The email object of the inbound payload. The source fields `from` and
`to` are embedded as `fromAddr` and `toAddr`. -/
structure EmailMessage where
  id : Str
  subject : Option Str
  fromAddr : Option EmailAddress
  toAddr : Option EmailAddress
  parsedData : Option ParsedData
  cleanedContent : Option CleanedContent
deriving DecidableEq

/-- The webhook payload handed to the workflow. -/
structure InboundWebhookPayload where
  event : Str
  timestamp : Str
  email : EmailMessage
deriving DecidableEq

/-- The classifier verdict; `confidence` is embedded as an exact rational. -/
structure DetectionResult where
  isSpam : Bool
  confidence : ℚ
  reasoning : Str
  references : List Str
deriving DecidableEq

/-- The constraint imposed by `spamDetectionSchema` beyond the field types:
`confidence` carries `min(0).max(1)`. -/
def spamDetectionSchemaOk (d : DetectionResult) : Prop :=
  0 ≤ d.confidence ∧ d.confidence ≤ 1

instance (d : DetectionResult) : Decidable (spamDetectionSchemaOk d) :=
  inferInstanceAs (Decidable (0 ≤ d.confidence ∧ d.confidence ≤ 1))

/-- Modelled from the spec: the schema-constrained structured-output call
(`generateObject` with `spamDetectionSchema`), whose implementation lives in
the external model SDK. The raw model response is accepted only when it
conforms to the schema; otherwise the call fails. The schema itself (field
shape and confidence bounds) is taken from the source. -/
def generateObjectDetection (resp : Except Str DetectionResult) :
    Except Str DetectionResult :=
  match resp with
  | .error e => .error e
  | .ok d =>
    if spamDetectionSchemaOk d then .ok d
    else .error ("schema validation failed").toList

/-- The record returned by the classifier step. -/
structure DetectionStepResult where
  detectionResult : DetectionResult
  emailId : Str
deriving DecidableEq

/-- The email fields extracted at the top of `analyzeEmailForSpam`, after the
logical-or defaults. The source locals `from` and `to` are embedded as
`fromText` and `toText`. -/
structure SpamAnalysisInputs where
  rawEmail : Str
  headers : List (Str × Str)
  htmlBody : Str
  textBody : Str
  subject : Str
  fromText : Str
  toText : Str
deriving DecidableEq

/-- The extraction performed by `analyzeEmailForSpam`: each optional field
falls back to the empty string, and the header mapping falls back to the
empty mapping (an object is never falsy, so `getD` is exact for it). -/
def extractSpamInputs (payload : InboundWebhookPayload) : SpamAnalysisInputs :=
  { rawEmail := jsOrStr (payload.email.parsedData.bind ParsedData.raw) []
  , headers := (payload.email.parsedData.bind ParsedData.headers).getD []
  , htmlBody := jsOrStr (payload.email.parsedData.bind ParsedData.htmlBody) []
  , textBody := jsOrStr (payload.email.parsedData.bind ParsedData.textBody) []
  , subject := jsOrStr payload.email.subject []
  , fromText := jsOrStr (payload.email.fromAddr.bind EmailAddress.text) []
  , toText := jsOrStr (payload.email.toAddr.bind EmailAddress.text) [] }

/-- The classifier step. The language model is an oracle whose raw response
is passed through the schema-validating structured-output call; on success the
step wraps the verdict with the payload's email id. -/
def analyzeEmailForSpam (payload : InboundWebhookPayload)
    (classifierModel : Except Str DetectionResult) :
    Except Str DetectionStepResult :=
  match generateObjectDetection classifierModel with
  | .error e => .error e
  | .ok obj => .ok { detectionResult := obj, emailId := payload.email.id }

/-- The truncation marker appended by `generateReply` when the text body
exceeds 2000 characters. -/
def truncMarker : Str := ("\n... (truncated)").toList

/-- The email-content slice of the composer prompt:
`substring(0, 2000)` followed by the conditional truncation marker. -/
def truncatedBody (textBody : Str) : Str :=
  textBody.take 2000 ++ (if 2000 < textBody.length then truncMarker else [])

/-- The text body extracted by `generateReply`: parsed text body, else
cleaned-content text, else the empty string (logical-or chain). -/
def extractTextBodyForReply (payload : InboundWebhookPayload) : Str :=
  jsOrStr (payload.email.parsedData.bind ParsedData.textBody)
    (jsOrStr (payload.email.cleanedContent.bind CleanedContent.text) [])

/-- The html body extracted by `generateReply`: parsed html body, else
cleaned-content html, else the empty string (used only for logging). -/
def extractHtmlBodyForReply (payload : InboundWebhookPayload) : Str :=
  jsOrStr (payload.email.parsedData.bind ParsedData.htmlBody)
    (jsOrStr (payload.email.cleanedContent.bind CleanedContent.html) [])

/-- The from display string extracted by `generateReply`. -/
def extractFromForReply (payload : InboundWebhookPayload) : Str :=
  jsOrStr (payload.email.fromAddr.bind EmailAddress.text) []

/-- The subject extracted by `generateReply`. -/
def extractSubjectForReply (payload : InboundWebhookPayload) : Str :=
  jsOrStr payload.email.subject []

/-- Modelled from the spec: JS `Number.prototype.toFixed(1)` used for the
confidence percentage, rendered here from the exact rational by half-up
rounding at one decimal place (the source formats an IEEE double; its binary
representation artifacts are outside the claims treated here). -/
def toFixed1 (x : ℚ) : Str :=
  let n : Int := (x.num * 20 + (x.den : Int)) / (2 * (x.den : Int))
  (toString (n / 10) ++ "." ++ toString (n % 10)).toList

/-- Composer prompt text up to the from field. -/
def cSegA : Str :=
  ("You are an email security assistant providing a concise safety evaluation. A user forwarded an email to our service asking whether it is safe to trust.\n\nCONTEXT: This email was forwarded to us by a user who wants to know if they can safely interact with it. Your response will be sent back to help the user make an informed decision about the email\x27s safety.\n\nEmail Information:\n- From: ").toList

/-- Composer prompt text between the from field and the subject. -/
def cSegB : Str := ("\n- Subject: ").toList

/-- Composer prompt text between the subject and the email content. -/
def cSegC : Str := ("\n\nEmail Content:\n").toList

/-- Composer prompt text between the email content and the classification. -/
def cSegD : Str := ("\n\nSpam Detection Analysis:\n- Classification: ").toList

/-- Composer prompt text between the classification and the confidence. -/
def cSegE : Str := ("\n- Confidence Score: ").toList

/-- Composer prompt text between the confidence and the key concerns. -/
def cSegF : Str := ("%\n- Key Concerns: ").toList

/-- Composer prompt text after the key concerns (instructions and the example
structure). -/
def cSegG : Str :=
  ("\n\nGenerate a SHORT, CONCISE email reply (3-5 sentences maximum) that will be sent to the user. The reply should:\n1. Acknowledge they forwarded the email for a safety check\n2. Clearly state if the email is SAFE or UNSAFE\n3. Provide a brief explanation (1-2 sentences) of the main finding\n4. Give clear, actionable guidance (one sentence)\n\nIMPORTANT FORMATTING RULES:\n- Write like a plaintext email - simple, professional, direct\n- Use minimal HTML ONLY for code examples or technical terms (use <code> tags)\n- NO fancy colors, styling, backgrounds, or visual elements\n- NO complex HTML structure or tables\n- CRITICAL: Use GENEROUS line breaks with <br><br> tags to make the email easy to read\n- Add <br><br> after each sentence or thought to create visual spacing\n- Add <br><br> between different sections/paragraphs\n- Add <br><br> before the closing/signature\n- The email should have plenty of white space - not be a dense block of text\n- Keep it brief and to the point\n\nFormat as HTML but make it look and read like a plaintext email. Use <br><br> liberally for readability. Example structure:\n\n<html>\n<body>\n\nHi,<br><br>\n\nThanks for forwarding this email for review. This email appears [SAFE/UNSAFE - be clear].<br><br>\n\n[Brief 1-2 sentence explanation - add <br><br> after each sentence]<br><br>\n\n[One sentence guidance on what to do]<br><br>\n\nBest regards,<br>\nSecurity Analysis\n\n</body>\n</html>").toList

/-- The composer prompt assembled by `generateReply` from the extracted email
fields and the detection data. -/
def generateReplyPrompt (detectionData : DetectionStepResult)
    (payload : InboundWebhookPayload) : Str :=
  cSegA ++ extractFromForReply payload ++
  cSegB ++ extractSubjectForReply payload ++
  cSegC ++ truncatedBody (extractTextBodyForReply payload) ++
  cSegD ++ (if detectionData.detectionResult.isSpam
            then ("SPAM/MALICIOUS").toList else ("LEGITIMATE").toList) ++
  cSegE ++ toFixed1 (detectionData.detectionResult.confidence * 100) ++
  cSegF ++ joinSep ("; ").toList (detectionData.detectionResult.references.take 3) ++
  cSegG

/-- The composer step: call the language-model oracle on the assembled prompt
and append the attribution footer to the returned text. -/
def generateReply (detectionData : DetectionStepResult)
    (payload : InboundWebhookPayload)
    (composerModel : Str → Except Str Str) : Except Str Str :=
  match composerModel (generateReplyPrompt detectionData payload) with
  | .error e => .error e
  | .ok text => .ok (appendFooter text)

/-- The provider receipt returned by the reply call. -/
structure SendResult where
  id : Str
  messageId : Str
deriving DecidableEq

/-- The body of the provider reply call. The source field `from` is embedded
as `fromAddr`. -/
structure SendRequest where
  fromAddr : Str
  html : Str
  text : Str
deriving DecidableEq

/-- The fixed default sending address of `sendReply`. -/
def defaultFromAddress : Str := ("susdev@inbound.delivery").toList

/-- The sending address of `sendReply`: the environment override through the
logical-or fallback to the fixed default. -/
def fromAddressOf (envReplyFrom : Option Str) : Str :=
  jsOrStr envReplyFrom defaultFromAddress

/-- The delivery step: derive the plain-text projection, resolve the from
address, invoke the provider reply call, and either wrap a provider error in
a raised error or return the receipt. -/
def sendReply (emailId : Str) (replyHtml : Str)
    (_payload : InboundWebhookPayload) (envReplyFrom : Option Str)
    (provider : Str → SendRequest → Except Str SendResult) :
    Except Str SendResult :=
  match provider emailId
      { fromAddr := fromAddressOf envReplyFrom
      , html := replyHtml
      , text := replyTextOf replyHtml } with
  | .error e => .error (("Failed to send reply: ").toList ++ e)
  | .ok d => .ok d

/-- The aggregate record returned by the orchestrator. -/
structure WorkflowResult where
  success : Bool
  emailId : Str
  detectionResult : DetectionStepResult
  reply : Str
  sendResult : SendResult
deriving DecidableEq

/-- The orchestrator `scanAndReply`: classifier, then composer, then delivery,
each receiving the accumulated context; any step error propagates unchanged
and no aggregate record is produced. -/
def scanAndReply (payload : InboundWebhookPayload)
    (classifierModel : Except Str DetectionResult)
    (composerModel : Str → Except Str Str)
    (envReplyFrom : Option Str)
    (provider : Str → SendRequest → Except Str SendResult) :
    Except Str WorkflowResult :=
  match analyzeEmailForSpam payload classifierModel with
  | .error e => .error e
  | .ok detectionResult =>
    match generateReply detectionResult payload composerModel with
    | .error e => .error e
    | .ok reply =>
      match sendReply payload.email.id reply payload envReplyFrom provider with
      | .error e => .error e
      | .ok sendResult =>
        .ok { success := true
            , emailId := payload.email.id
            , detectionResult := detectionResult
            , reply := reply
            , sendResult := sendResult }

/-- The ingress request body as seen before validation: either top-level
field may be missing. -/
structure RawWebhookBody where
  event : Option Str
  email : Option EmailMessage
deriving DecidableEq

/-- The observable outcome of the ingress handler: HTTP status, response
message, and whether the workflow start call was invoked. -/
structure RouteOutcome where
  status : Nat
  body : Str
  startInvoked : Bool
deriving DecidableEq

/-- Falsiness of an optional string field under a JS truthiness test. -/
def isFalsyField : Option Str → Bool
  | none => true
  | some s => s.isEmpty

/-- The ingress handler `POST`: a body-parse failure lands in the catch
branch; a parsed body missing the event designator or the email object is
rejected before the workflow is started; otherwise the workflow start call is
invoked and a start failure lands in the catch branch. -/
def handlePOST (parsed : Except Str RawWebhookBody)
    (startRes : Except Str Unit) : RouteOutcome :=
  match parsed with
  | .error _ =>
    { status := 500, body := ("Internal server error").toList
    , startInvoked := false }
  | .ok p =>
    if isFalsyField p.event || p.email.isNone then
      { status := 400, body := ("Invalid webhook payload").toList
      , startInvoked := false }
    else
      match startRes with
      | .error _ =>
        { status := 500, body := ("Internal server error").toList
        , startInvoked := true }
      | .ok _ =>
        { status := 200
        , body := ("Webhook received and workflow started").toList
        , startInvoked := true }

/-- A concrete payload with all optional fields populated, used to exercise
the theorems below on closed inputs. -/
def demoPayload : InboundWebhookPayload :=
  { event := ("email.received").toList
  , timestamp := ("2026-01-01T00:00:00Z").toList
  , email :=
    { id := ("em_1").toList
    , subject := some (("Hello").toList)
    , fromAddr := some { text := some (("alice@example.com").toList) }
    , toAddr := some { text := some (("scan@susbound.dev").toList) }
    , parsedData := some (
      { raw := some (("raw source").toList)
      , headers := some [((("subject").toList), (("Hello").toList))]
      , htmlBody := some (("<p>hi</p>").toList)
      , textBody := some (("hi").toList) })
    , cleanedContent := none } }

/-- A concrete payload with every optional field absent. -/
def demoPayloadBare : InboundWebhookPayload :=
  { event := ("email.received").toList
  , timestamp := []
  , email :=
    { id := ("em_2").toList
    , subject := none
    , fromAddr := none
    , toAddr := none
    , parsedData := none
    , cleanedContent := none } }

/-- A variant of `demoPayload` whose text body arrives through the
cleaned-content fallback instead of the parsed data. -/
def demoPayloadAlt : InboundWebhookPayload :=
  { demoPayload with email :=
    { demoPayload.email with
        parsedData := some (
          { raw := some (("raw source").toList)
          , headers := some [((("subject").toList), (("Hello").toList))]
          , htmlBody := some (("<p>hi</p>").toList)
          , textBody := none })
        , cleanedContent := some ({ html := none, text := some (("hi").toList) }) } }

/-- Equality of step outcomes is decidable componentwise. -/
instance {e a : Type} [DecidableEq e] [DecidableEq a] :
    DecidableEq (Except e a) := fun x y =>
  match x, y with
  | .error u, .error v => decidable_of_iff (u = v) (by simp)
  | .error _, .ok _ => isFalse (by simp)
  | .ok _, .error _ => isFalse (by simp)
  | .ok u, .ok v => decidable_of_iff (u = v) (by simp)

/-- A concrete schema-conforming verdict. -/
def demoDetection : DetectionResult :=
  { isSpam := true
  , confidence := 1
  , reasoning := ("reasoning").toList
  , references := [("SPF fail").toList] }

/-- A concrete provider receipt. -/
def demoSend : SendResult :=
  { id := ("snd_1").toList, messageId := ("msg_1").toList }

theorem startsList_iff_append (p : Str) :
    ∀ s : Str, startsList p s = true ↔ ∃ r, s = p ++ r := by
  induction p with
  | nil => intro s; simp [startsList]
  | cons a ps ih =>
    intro s
    cases s with
    | nil => simp [startsList]
    | cons c t =>
      simp only [startsList, Bool.and_eq_true, beq_iff_eq, ih t,
        List.cons_append, List.cons.injEq]
      constructor
      · rintro ⟨rfl, r, rfl⟩; exact ⟨r, rfl, rfl⟩
      · rintro ⟨r, rfl, rfl⟩; exact ⟨rfl, r, rfl⟩

theorem startsList_take_drop {p s : Str} (h : startsList p s = true) :
    s = p ++ s.drop p.length := by
  obtain ⟨r, rfl⟩ := (startsList_iff_append p s).1 h
  rw [List.drop_left]

theorem replaceFirst_split (pat repl : Str) (hp : pat ≠ []) :
    ∀ s : Str, includes pat s = true →
      ∃ u v, s = u ++ pat ++ v ∧
        replaceFirst pat repl s = u ++ repl ++ v ∧
        (∀ u2 v2, s = u2 ++ pat ++ v2 → u.length ≤ u2.length) := by
  intro s
  induction s with
  | nil =>
    intro h
    exfalso
    cases pat with
    | nil => exact hp rfl
    | cons a ps => simp [includes, startsList] at h
  | cons c t ih =>
    intro h
    by_cases hpre : startsList pat (c :: t) = true
    · refine ⟨[], (c :: t).drop pat.length, ?_, ?_, fun u2 v2 _ => Nat.zero_le _⟩
      · simpa using startsList_take_drop hpre
      · simp [replaceFirst, hpre]
    · have h' : includes pat t = true := by
        simp only [includes, Bool.or_eq_true] at h
        rcases h with h | h
        · exact absurd h hpre
        · exact h
      obtain ⟨u, v, hsplit, hrw, hmin⟩ := ih h'
      refine ⟨c :: u, v, ?_, ?_, ?_⟩
      · simp [hsplit]
      · simp [replaceFirst, hpre, hrw]
      · intro u2 v2 heq
        cases u2 with
        | nil =>
          exfalso
          apply hpre
          refine (startsList_iff_append pat (c :: t)).2 ⟨v2, ?_⟩
          simpa using heq
        | cons c2 u2t =>
          simp only [List.cons_append] at heq
          injection heq with h1 h2
          simpa using Nat.succ_le_succ (hmin u2t v2 h2)

theorem head_dropWhile_false (p : Char → Bool) :
    ∀ (l : Str) (c : Char), (l.dropWhile p).head? = some c → p c = false := by
  intro l
  induction l with
  | nil => intro c h; simp [List.dropWhile] at h
  | cons a t ih =>
    intro c h
    rw [List.dropWhile_cons] at h
    by_cases hp : p a = true
    · rw [if_pos hp] at h; exact ih c h
    · rw [if_neg hp] at h
      simp only [List.head?_cons, Option.some.injEq] at h
      subst h
      exact Bool.not_eq_true _ |>.mp hp

theorem getLast_dropWhile_last (p : Char → Bool) :
    ∀ (l : Str) (c : Char),
      (l.dropWhile p).getLast? = some c → l.getLast? = some c := by
  intro l
  induction l with
  | nil => intro c h; simp [List.dropWhile] at h
  | cons a t ih =>
    intro c h
    rw [List.dropWhile_cons] at h
    by_cases hp : p a = true
    · rw [if_pos hp] at h
      have ht := ih c h
      cases t with
      | nil => simp at ht
      | cons b t2 => rw [List.getLast?_cons_cons]; exact ht
    · rw [if_neg hp] at h
      exact h

theorem afterGt_length : ∀ {t t2 : Str}, afterGt t = some t2 → t2.length < t.length := by
  intro t
  induction t with
  | nil => intro t2 h; simp [afterGt] at h
  | cons c t ih =>
    intro t2 h
    rw [afterGt] at h
    by_cases hc : c = '>'
    · rw [if_pos hc] at h
      injection h with h
      subst h
      simp
    · rw [if_neg hc] at h
      exact Nat.lt_trans (ih h) (by simp)

theorem stripTagsGo_fuel :
    ∀ (f1 : Nat) (f2 : Nat) (s : Str), s.length ≤ f1 → s.length ≤ f2 →
      stripTagsGo f1 s = stripTagsGo f2 s := by
  intro f1
  induction f1 with
  | zero =>
    intro f2 s h1 _
    have hs : s = [] := List.eq_nil_of_length_eq_zero (Nat.le_zero.mp h1)
    subst hs
    simp [stripTagsGo]
  | succ f ih =>
    intro f2 s h1 h2
    cases s with
    | nil => simp [stripTagsGo]
    | cons c t =>
      cases f2 with
      | zero => simp at h2
      | succ f2t =>
        simp only [List.length_cons, Nat.succ_le_succ_iff] at h1 h2
        simp only [stripTagsGo]
        by_cases hc : c = '<'
        · rw [if_pos hc, if_pos hc]
          cases hgt : afterGt t with
          | some t2 =>
            have hlen := afterGt_length hgt
            exact ih f2t t2 (Nat.le_of_lt (Nat.lt_of_lt_of_le hlen h1))
              (Nat.le_of_lt (Nat.lt_of_lt_of_le hlen h2))
          | none =>
            rw [ih f2t t h1 h2]
        · rw [if_neg hc, if_neg hc, ih f2t t h1 h2]

theorem stripTags_cons_ne {c : Char} (rest : Str) (hc : c ≠ '<') :
    stripTags (c :: rest) = c :: stripTags rest := by
  show stripTagsGo (c :: rest).length (c :: rest) = c :: stripTagsGo rest.length rest
  simp only [List.length_cons, stripTagsGo]
  rw [if_neg hc]

theorem afterGt_through (inner rest : Str) (h : '>' ∉ inner) :
    afterGt (inner ++ '>' :: rest) = some rest := by
  induction inner with
  | nil => simp [afterGt]
  | cons a t ih =>
    have ha : a ≠ '>' := fun heq => h (by simp [heq])
    rw [List.cons_append, afterGt, if_neg ha]
    exact ih (fun hm => h (List.mem_cons_of_mem a hm))

theorem stripTags_tag (inner rest : Str) (h : '>' ∉ inner) :
    stripTags ('<' :: (inner ++ '>' :: rest)) = stripTags rest := by
  show stripTagsGo ('<' :: (inner ++ '>' :: rest)).length _ = _
  simp only [List.length_cons, stripTagsGo, afterGt_through inner rest h,
    if_pos rfl]
  exact stripTagsGo_fuel _ _ rest (by simp [List.length_append]; omega)
    (Nat.le_refl _)

theorem sendReply_ok_inv {emailId replyHtml : Str}
    {payload : InboundWebhookPayload} {envReplyFrom : Option Str}
    {provider : Str → SendRequest → Except Str SendResult} {d : SendResult}
    (h : sendReply emailId replyHtml payload envReplyFrom provider = .ok d) :
    provider emailId
      { fromAddr := fromAddressOf envReplyFrom
      , html := replyHtml
      , text := replyTextOf replyHtml } = .ok d := by
  rw [sendReply] at h
  cases hP : provider emailId
      { fromAddr := fromAddressOf envReplyFrom
      , html := replyHtml
      , text := replyTextOf replyHtml } with
  | error e => rw [hP] at h; simp at h
  | ok d2 => rw [hP] at h; simpa using h

theorem scanAndReply_ok_inv {payload : InboundWebhookPayload}
    {classifierModel : Except Str DetectionResult}
    {composerModel : Str → Except Str Str} {envReplyFrom : Option Str}
    {provider : Str → SendRequest → Except Str SendResult} {w : WorkflowResult}
    (h : scanAndReply payload classifierModel composerModel envReplyFrom
      provider = .ok w) :
    ∃ d r sr, analyzeEmailForSpam payload classifierModel = .ok d ∧
      generateReply d payload composerModel = .ok r ∧
      sendReply payload.email.id r payload envReplyFrom provider = .ok sr ∧
      w = { success := true, emailId := payload.email.id
          , detectionResult := d, reply := r, sendResult := sr } := by
  rw [scanAndReply] at h
  cases hA : analyzeEmailForSpam payload classifierModel with
  | error e => simp only [hA] at h; exact Except.noConfusion h
  | ok d =>
    simp only [hA] at h
    cases hB : generateReply d payload composerModel with
    | error e => simp only [hB] at h; exact Except.noConfusion h
    | ok r =>
      simp only [hB] at h
      cases hC : sendReply payload.email.id r payload envReplyFrom provider with
      | error e => simp only [hC] at h; exact Except.noConfusion h
      | ok sr =>
        simp only [hC, Except.ok.injEq] at h
        exact ⟨d, r, sr, rfl, hB, hC, h.symm⟩

/-- C1: the composer footer post-processing inserts the fixed attribution
footer exactly once, at a deterministic position: immediately before the
first occurrence of the closing body tag when one is present, otherwise
immediately before the first occurrence of the closing html tag when one is
present, otherwise appended at the very end; every other character of the
model text is unchanged. -/
theorem c1_footer_insertion (text : Str) :
    (includes bodyClose text = true →
      ∃ u v, text = u ++ bodyClose ++ v ∧
        appendFooter text = u ++ footer ++ bodyClose ++ v ∧
        (∀ u2 v2, text = u2 ++ bodyClose ++ v2 → u.length ≤ u2.length)) ∧
    (includes bodyClose text = false → includes htmlClose text = true →
      ∃ u v, text = u ++ htmlClose ++ v ∧
        appendFooter text = u ++ footer ++ htmlClose ++ v ∧
        (∀ u2 v2, text = u2 ++ htmlClose ++ v2 → u.length ≤ u2.length)) ∧
    (includes bodyClose text = false → includes htmlClose text = false →
      appendFooter text = text ++ footer) := by
  refine ⟨?_, ?_, ?_⟩
  · intro hb
    obtain ⟨u, v, hsplit, hrw, hmin⟩ :=
      replaceFirst_split bodyClose (footer ++ bodyClose) (by decide) text hb
    refine ⟨u, v, hsplit, ?_, hmin⟩
    rw [appendFooter, if_pos hb, hrw]
    simp [List.append_assoc]
  · intro hb hh
    obtain ⟨u, v, hsplit, hrw, hmin⟩ :=
      replaceFirst_split htmlClose (footer ++ htmlClose) (by decide) text hh
    refine ⟨u, v, hsplit, ?_, hmin⟩
    rw [appendFooter, if_neg (by simp [hb]), if_pos hh, hrw]
    simp [List.append_assoc]
  · intro hb hh
    rw [appendFooter, if_neg (by simp [hb]), if_neg (by simp [hh])]

/-- C1 witness: the body-tag branch discharged on a concrete model text. -/
theorem c1_footer_insertion_witness :
    ∃ u v, ("<html><body>Hi</body></html>").toList = u ++ bodyClose ++ v ∧
      appendFooter (("<html><body>Hi</body></html>").toList) =
        u ++ footer ++ bodyClose ++ v ∧
      (∀ u2 v2,
        ("<html><body>Hi</body></html>").toList = u2 ++ bodyClose ++ v2 →
        u.length ≤ u2.length) :=
  (c1_footer_insertion (("<html><body>Hi</body></html>").toList)).1 (by decide)

/-- C2 counterexample: the delivered plain text is not always the bare
strip-and-unescape projection claimed — on a reply with leading whitespace
the step also trims, so a character of the input is removed. -/
theorem c2_projection_counterexample :
    replyTextOf ((" x").toList) ≠ stripAndUnescape ((" x").toList) := by
  decide

/-- C2 (amended): the delivered plain text is the tag-stripping and
five-entity-unescape projection followed by a trim of leading and trailing
whitespace; tag-delimited substrings are removed, other characters pass
through the tag stripper, and the claimed test vector evaluates as stated. -/
theorem c2_plaintext_projection :
    (∀ s : Str, replyTextOf s = trimJs (stripAndUnescape s)) ∧
    (∀ (c : Char) (rest : Str), c ≠ '<' →
      stripTags (c :: rest) = c :: stripTags rest) ∧
    (∀ inner rest : Str, '>' ∉ inner →
      stripTags ('<' :: (inner ++ '>' :: rest)) = stripTags rest) ∧
    replyTextOf (("Hi <b>there</b> &amp; welcome").toList) =
      ("Hi there & welcome").toList :=
  ⟨fun _ => rfl, fun _ rest hc => stripTags_cons_ne rest hc,
    fun inner rest h => stripTags_tag inner rest h, by decide⟩

/-- C2 witness: the tag-stripping conjuncts discharged on concrete strings. -/
theorem c2_plaintext_projection_witness :
    stripTags ('a' :: ("bc").toList) = 'a' :: stripTags (("bc").toList) ∧
    stripTags ('<' :: (("b").toList ++ '>' :: ("c").toList)) =
      stripTags (("c").toList) :=
  ⟨c2_plaintext_projection.2.1 'a' (("bc").toList) (by decide),
    c2_plaintext_projection.2.2.1 (("b").toList) (("c").toList) (by decide)⟩

/-- C3: the delivery step raises exactly when the provider reply call returns
an error, the raised error carries the provider error detail, a provider
success is returned unchanged, and a successful aggregate orchestrator result
can only arise from a successful provider call. -/
theorem c3_delivery_error_propagation
    (emailId replyHtml : Str) (payload : InboundWebhookPayload)
    (envReplyFrom : Option Str)
    (provider : Str → SendRequest → Except Str SendResult) :
    (∀ e, provider emailId
        { fromAddr := fromAddressOf envReplyFrom, html := replyHtml
        , text := replyTextOf replyHtml } = .error e →
      sendReply emailId replyHtml payload envReplyFrom provider =
        .error (("Failed to send reply: ").toList ++ e)) ∧
    (∀ d, provider emailId
        { fromAddr := fromAddressOf envReplyFrom, html := replyHtml
        , text := replyTextOf replyHtml } = .ok d →
      sendReply emailId replyHtml payload envReplyFrom provider = .ok d) ∧
    (∀ (classifierModel : Except Str DetectionResult)
       (composerModel : Str → Except Str Str) (w : WorkflowResult),
      scanAndReply payload classifierModel composerModel envReplyFrom
          provider = .ok w →
      provider payload.email.id
        { fromAddr := fromAddressOf envReplyFrom, html := w.reply
        , text := replyTextOf w.reply } = .ok w.sendResult) := by
  refine ⟨?_, ?_, ?_⟩
  · intro e h
    rw [sendReply, h]
  · intro d h
    rw [sendReply, h]
  · intro classifierModel composerModel w hw
    obtain ⟨d, r, sr, _, _, hC, rfl⟩ := scanAndReply_ok_inv hw
    simpa using sendReply_ok_inv hC

/-- C3 witness: a failing provider call at concrete inputs makes the step
raise with the provider detail attached. -/
theorem c3_delivery_error_propagation_witness :
    sendReply (("em_1").toList) (("<p>r</p>").toList) demoPayload none
        (fun _ _ => .error (("boom").toList)) =
      .error (("Failed to send reply: boom").toList) :=
  (c3_delivery_error_propagation (("em_1").toList) (("<p>r</p>").toList)
    demoPayload none (fun _ _ => .error (("boom").toList))).1
    (("boom").toList) rfl

/-- C4: the orchestrator runs classifier, composer and delivery in that fixed
order with the accumulated context (the composer gets the detection record
and the payload, the delivery gets the original message id, the composed
html and the payload); a step error propagates unchanged with no aggregate
record, and on success the aggregate record has the stated shape. -/
theorem c4_orchestrator_sequencing
    (payload : InboundWebhookPayload)
    (classifierModel : Except Str DetectionResult)
    (composerModel : Str → Except Str Str)
    (envReplyFrom : Option Str)
    (provider : Str → SendRequest → Except Str SendResult) :
    (∀ e, analyzeEmailForSpam payload classifierModel = .error e →
      scanAndReply payload classifierModel composerModel envReplyFrom
        provider = .error e) ∧
    (∀ d e, analyzeEmailForSpam payload classifierModel = .ok d →
      generateReply d payload composerModel = .error e →
      scanAndReply payload classifierModel composerModel envReplyFrom
        provider = .error e) ∧
    (∀ d r e, analyzeEmailForSpam payload classifierModel = .ok d →
      generateReply d payload composerModel = .ok r →
      sendReply payload.email.id r payload envReplyFrom provider = .error e →
      scanAndReply payload classifierModel composerModel envReplyFrom
        provider = .error e) ∧
    (∀ d r sr, analyzeEmailForSpam payload classifierModel = .ok d →
      generateReply d payload composerModel = .ok r →
      sendReply payload.email.id r payload envReplyFrom provider = .ok sr →
      scanAndReply payload classifierModel composerModel envReplyFrom
        provider =
        .ok { success := true, emailId := payload.email.id
            , detectionResult := d, reply := r, sendResult := sr }) := by
  refine ⟨?_, ?_, ?_, ?_⟩
  · intro e hA
    rw [scanAndReply]
    simp only [hA]
  · intro d e hA hB
    rw [scanAndReply]
    simp only [hA, hB]
  · intro d r e hA hB hC
    rw [scanAndReply]
    simp only [hA, hB, hC]
  · intro d r sr hA hB hC
    rw [scanAndReply]
    simp only [hA, hB, hC]

/-- C4 witness: the all-steps-succeed branch discharged at concrete inputs.
-/
theorem c4_orchestrator_sequencing_witness :
    scanAndReply demoPayload (.ok demoDetection)
        (fun _ => .ok (("<body>ok</body>").toList)) none
        (fun _ _ => .ok demoSend) =
      .ok { success := true, emailId := demoPayload.email.id
          , detectionResult :=
              { detectionResult := demoDetection
              , emailId := demoPayload.email.id }
          , reply := appendFooter (("<body>ok</body>").toList)
          , sendResult := demoSend } :=
  (c4_orchestrator_sequencing demoPayload (.ok demoDetection)
      (fun _ => .ok (("<body>ok</body>").toList)) none
      (fun _ _ => .ok demoSend)).2.2.2
    { detectionResult := demoDetection, emailId := demoPayload.email.id }
    (appendFooter (("<body>ok</body>").toList)) demoSend
    (by decide) rfl rfl

/-- C5: every detection record the classifier step returns satisfies the
schema bound on confidence, enforced at the model call itself, so the value
handed onward (and recorded in a successful aggregate) is always within the
inclusive unit interval. -/
theorem c5_detection_schema_bounds :
    (∀ (payload : InboundWebhookPayload)
       (classifierModel : Except Str DetectionResult)
       (d : DetectionStepResult),
      analyzeEmailForSpam payload classifierModel = .ok d →
      0 ≤ d.detectionResult.confidence ∧ d.detectionResult.confidence ≤ 1) ∧
    (∀ (payload : InboundWebhookPayload)
       (classifierModel : Except Str DetectionResult)
       (composerModel : Str → Except Str Str) (envReplyFrom : Option Str)
       (provider : Str → SendRequest → Except Str SendResult)
       (w : WorkflowResult),
      scanAndReply payload classifierModel composerModel envReplyFrom
          provider = .ok w →
      0 ≤ w.detectionResult.detectionResult.confidence ∧
        w.detectionResult.detectionResult.confidence ≤ 1) := by
  have key : ∀ (payload : InboundWebhookPayload)
      (classifierModel : Except Str DetectionResult)
      (d : DetectionStepResult),
      analyzeEmailForSpam payload classifierModel = .ok d →
      0 ≤ d.detectionResult.confidence ∧ d.detectionResult.confidence ≤ 1 := by
    intro payload classifierModel d h
    cases classifierModel with
    | error e => simp [analyzeEmailForSpam, generateObjectDetection] at h
    | ok d0 =>
      by_cases hok : spamDetectionSchemaOk d0
      · simp only [analyzeEmailForSpam, generateObjectDetection, hok,
          if_true, Except.ok.injEq] at h
        subst h
        exact hok
      · simp [analyzeEmailForSpam, generateObjectDetection, hok] at h
  refine ⟨key, ?_⟩
  intro payload classifierModel composerModel envReplyFrom provider w hw
  obtain ⟨d, r, sr, hA, _, _, rfl⟩ := scanAndReply_ok_inv hw
  simpa using key payload classifierModel d hA

/-- C5 witness: the schema bound discharged on a concrete classifier run. -/
theorem c5_detection_schema_bounds_witness :
    0 ≤ demoDetection.confidence ∧ demoDetection.confidence ≤ 1 :=
  c5_detection_schema_bounds.1 demoPayload (.ok demoDetection)
    { detectionResult := demoDetection, emailId := demoPayload.email.id }
    (by decide)

/-- C6: a parsed ingress body missing the event designator or the email
object is answered with status 400 and the workflow start call is never
invoked; a body-parse failure or a workflow start failure is answered with
the generic status 500. -/
theorem c6_ingress_validation
    (parsed : Except Str RawWebhookBody) (startRes : Except Str Unit) :
    (∀ p, parsed = .ok p → (p.event = none ∨ p.email = none) →
      handlePOST parsed startRes =
        { status := 400, body := ("Invalid webhook payload").toList
        , startInvoked := false }) ∧
    (∀ e, parsed = .error e →
      handlePOST parsed startRes =
        { status := 500, body := ("Internal server error").toList
        , startInvoked := false }) ∧
    (∀ p e, parsed = .ok p → isFalsyField p.event = false →
      p.email.isNone = false → startRes = .error e →
      handlePOST parsed startRes =
        { status := 500, body := ("Internal server error").toList
        , startInvoked := true }) := by
  refine ⟨?_, ?_, ?_⟩
  · rintro p rfl (h | h) <;> simp [handlePOST, h, isFalsyField]
  · rintro e rfl; rfl
  · rintro p e rfl hf hn rfl
    simp [handlePOST, hf, hn]

/-- C6 witness: a body lacking both fields is rejected with 400 and the
workflow is not started. -/
theorem c6_ingress_validation_witness :
    handlePOST (.ok { event := none, email := none }) (.ok ()) =
      { status := 400, body := ("Invalid webhook payload").toList
      , startInvoked := false } :=
  (c6_ingress_validation (.ok { event := none, email := none }) (.ok ())).1
    { event := none, email := none } rfl (Or.inl rfl)

theorem jsOrStr_some_nil (r : Str) : jsOrStr (some r) [] = r := by
  rw [jsOrStr]
  by_cases hr : r = []
  · rw [if_pos hr, hr]
  · rw [if_neg hr]

/-- C7: the classifier step extracts raw source, header mapping, html body,
text body, subject, from-address and to-address, substituting the empty
string (or the empty mapping) for each absent field and passing a present
field through unchanged. -/
theorem c7_classifier_extraction (payload : InboundWebhookPayload) :
    ((payload.email.parsedData.bind ParsedData.raw = none →
        (extractSpamInputs payload).rawEmail = []) ∧
      (∀ r, payload.email.parsedData.bind ParsedData.raw = some r →
        (extractSpamInputs payload).rawEmail = r)) ∧
    ((payload.email.parsedData.bind ParsedData.headers = none →
        (extractSpamInputs payload).headers = []) ∧
      (∀ hs, payload.email.parsedData.bind ParsedData.headers = some hs →
        (extractSpamInputs payload).headers = hs)) ∧
    ((payload.email.parsedData.bind ParsedData.htmlBody = none →
        (extractSpamInputs payload).htmlBody = []) ∧
      (∀ r, payload.email.parsedData.bind ParsedData.htmlBody = some r →
        (extractSpamInputs payload).htmlBody = r)) ∧
    ((payload.email.parsedData.bind ParsedData.textBody = none →
        (extractSpamInputs payload).textBody = []) ∧
      (∀ r, payload.email.parsedData.bind ParsedData.textBody = some r →
        (extractSpamInputs payload).textBody = r)) ∧
    ((payload.email.subject = none →
        (extractSpamInputs payload).subject = []) ∧
      (∀ r, payload.email.subject = some r →
        (extractSpamInputs payload).subject = r)) ∧
    ((payload.email.fromAddr.bind EmailAddress.text = none →
        (extractSpamInputs payload).fromText = []) ∧
      (∀ r, payload.email.fromAddr.bind EmailAddress.text = some r →
        (extractSpamInputs payload).fromText = r)) ∧
    ((payload.email.toAddr.bind EmailAddress.text = none →
        (extractSpamInputs payload).toText = []) ∧
      (∀ r, payload.email.toAddr.bind EmailAddress.text = some r →
        (extractSpamInputs payload).toText = r)) := by
  refine ⟨⟨?_, ?_⟩, ⟨?_, ?_⟩, ⟨?_, ?_⟩, ⟨?_, ?_⟩, ⟨?_, ?_⟩, ⟨?_, ?_⟩,
    ⟨?_, ?_⟩⟩ <;>
    first
      | (intro h; simp [extractSpamInputs, h, jsOrStr])
      | (intro r h; simp [extractSpamInputs, h, jsOrStr_some_nil])

/-- C7 witness: an absent field defaults to empty and a present field passes
through, at concrete payloads. -/
theorem c7_classifier_extraction_witness :
    (extractSpamInputs demoPayloadBare).rawEmail = [] ∧
    (extractSpamInputs demoPayload).subject = ("Hello").toList :=
  ⟨(c7_classifier_extraction demoPayloadBare).1.1 rfl,
    (c7_classifier_extraction demoPayload).2.2.2.2.1.2 (("Hello").toList) rfl⟩

/-- C8 counterexample: with the environment override set to the empty string
the sending address is not the override but the fixed default, so the
sending address does not always equal the override when it is set. -/
theorem c8_from_address_counterexample :
    fromAddressOf (some ([] : Str)) ≠ ([] : Str) ∧
    fromAddressOf (some ([] : Str)) = defaultFromAddress := by
  constructor
  · decide
  · rfl

/-- C8 (amended): the sending address equals the environment override when it
is set to a nonempty string, and the fixed default address when it is unset
or set to the empty string; no other value is ever used, and the delivery
step consults the provider only at that single address. -/
theorem c8_from_address (envReplyFrom : Option Str) :
    (envReplyFrom = none → fromAddressOf envReplyFrom = defaultFromAddress) ∧
    (envReplyFrom = some [] →
      fromAddressOf envReplyFrom = defaultFromAddress) ∧
    (∀ s, envReplyFrom = some s → s ≠ [] → fromAddressOf envReplyFrom = s) ∧
    (fromAddressOf envReplyFrom = defaultFromAddress ∨
      ∃ s, envReplyFrom = some s ∧ s ≠ [] ∧ fromAddressOf envReplyFrom = s) ∧
    (∀ (emailId replyHtml : Str) (payload : InboundWebhookPayload)
       (provider provider2 : Str → SendRequest → Except Str SendResult),
      provider emailId
          { fromAddr := fromAddressOf envReplyFrom, html := replyHtml
          , text := replyTextOf replyHtml } =
        provider2 emailId
          { fromAddr := fromAddressOf envReplyFrom, html := replyHtml
          , text := replyTextOf replyHtml } →
      sendReply emailId replyHtml payload envReplyFrom provider =
        sendReply emailId replyHtml payload envReplyFrom provider2) := by
  refine ⟨?_, ?_, ?_, ?_, ?_⟩
  · rintro rfl; rfl
  · rintro rfl; rfl
  · rintro s rfl hs
    rw [fromAddressOf, jsOrStr, if_neg hs]
  · cases envReplyFrom with
    | none => exact Or.inl rfl
    | some s =>
      by_cases hs : s = []
      · subst hs; exact Or.inl rfl
      · exact Or.inr ⟨s, rfl, hs, by rw [fromAddressOf, jsOrStr, if_neg hs]⟩
  · intro emailId replyHtml payload provider provider2 h
    rw [sendReply, sendReply, h]

/-- C8 witness: the amended branches discharged at concrete environments. -/
theorem c8_from_address_witness :
    fromAddressOf (some (("me@example.com").toList)) =
      ("me@example.com").toList ∧
    fromAddressOf none = defaultFromAddress :=
  ⟨(c8_from_address (some (("me@example.com").toList))).2.2.1
      (("me@example.com").toList) rfl (by decide),
    (c8_from_address none).1 rfl⟩

/-- C9: the plain text submitted to the provider has no leading or trailing
whitespace, and on some inputs the trim is strict, so the submitted text is
not exactly the strip-and-unescape of the html. -/
theorem c9_projection_trimmed :
    (∀ (s : Str) (c : Char),
      (replyTextOf s).head? = some c → isJsWhite c = false) ∧
    (∀ (s : Str) (c : Char),
      (replyTextOf s).getLast? = some c → isJsWhite c = false) ∧
    replyTextOf (("hi ").toList) ≠ stripAndUnescape (("hi ").toList) := by
  refine ⟨?_, ?_, by decide⟩
  · intro s c h
    rw [replyTextOf, trimJs, List.head?_reverse] at h
    have h2 := getLast_dropWhile_last isJsWhite _ c h
    rw [List.getLast?_reverse] at h2
    exact head_dropWhile_false isJsWhite _ c h2
  · intro s c h
    rw [replyTextOf, trimJs, List.getLast?_reverse] at h
    exact head_dropWhile_false isJsWhite _ c h

/-- C9 witness: the no-leading-whitespace property discharged at a concrete
reply. -/
theorem c9_projection_trimmed_witness :
    (replyTextOf ((" a ").toList)).head? = some 'a' ∧
    isJsWhite 'a' = false :=
  ⟨by decide, c9_projection_trimmed.1 ((" a ").toList) 'a' (by decide)⟩

/-- C10: the composer prompt contains the extracted text body only through
its first 2000 characters plus the conditional truncation marker: a body of
at most 2000 characters is spliced whole without marker, a longer body is cut
at 2000 characters with the marker appended, the prompt factors through that
slice, and two payloads agreeing on the other extracted fields, on the first
2000 characters of the body and on the over-2000 flag produce the identical
prompt, so the remainder of the body never reaches the reply model. -/
theorem c10_prompt_truncation :
    (∀ tb : Str, tb.length ≤ 2000 → truncatedBody tb = tb) ∧
    (∀ tb : Str, 2000 < tb.length →
      truncatedBody tb = tb.take 2000 ++ truncMarker) ∧
    (∀ (dd : DetectionStepResult) (payload : InboundWebhookPayload),
      ∃ u v, generateReplyPrompt dd payload =
        u ++ (truncatedBody (extractTextBodyForReply payload) ++ v)) ∧
    (∀ (dd : DetectionStepResult) (p p2 : InboundWebhookPayload),
      extractFromForReply p = extractFromForReply p2 →
      extractSubjectForReply p = extractSubjectForReply p2 →
      (extractTextBodyForReply p).take 2000 =
        (extractTextBodyForReply p2).take 2000 →
      (2000 < (extractTextBodyForReply p).length ↔
        2000 < (extractTextBodyForReply p2).length) →
      generateReplyPrompt dd p = generateReplyPrompt dd p2) := by
  refine ⟨?_, ?_, ?_, ?_⟩
  · intro tb h
    rw [truncatedBody, if_neg (Nat.not_lt.mpr h), List.append_nil,
      List.take_of_length_le h]
  · intro tb h
    rw [truncatedBody, if_pos h]
  · intro dd payload
    refine ⟨cSegA ++ extractFromForReply payload ++ cSegB ++
      extractSubjectForReply payload ++ cSegC,
      cSegD ++ (if dd.detectionResult.isSpam
        then ("SPAM/MALICIOUS").toList else ("LEGITIMATE").toList) ++
      cSegE ++ toFixed1 (dd.detectionResult.confidence * 100) ++
      cSegF ++ joinSep ("; ").toList (dd.detectionResult.references.take 3) ++
      cSegG, ?_⟩
    simp [generateReplyPrompt, List.append_assoc]
  · intro dd p p2 hf hs ht hiff
    simp only [generateReplyPrompt, truncatedBody, hf, hs, ht, hiff]

/-- C10 witness: two payloads that agree on the extracted fields through the
fallback chain produce the identical composer prompt. -/
theorem c10_prompt_truncation_witness :
    generateReplyPrompt
        { detectionResult := demoDetection, emailId := demoPayload.email.id }
        demoPayload =
      generateReplyPrompt
        { detectionResult := demoDetection, emailId := demoPayload.email.id }
        demoPayloadAlt :=
  c10_prompt_truncation.2.2.2
    { detectionResult := demoDetection, emailId := demoPayload.email.id }
    demoPayload demoPayloadAlt (by decide) (by decide) (by decide) (by decide)
